import Mathlib

/-
Verification of the HeirclarkHealthAppNew utility scripts.

Shallow embedding of the repository's Python scripts:
 * src/crawl_heirclark_website.py  (crawl_heirclark)
 * src/process_app_icon.py and src/process_svg_icon.py
 * src/backend/run_migration.py
 * the browser-automation capture scripts
The browser itself is modelled as an oracle (a pure function standing for
page navigation / DOM extraction results); everything the scripts compute
from the oracle's answers is transcribed from the source.
-/

namespace Heirclark

/-! ## Crawler data model (src/crawl_heirclark_website.py) -/

/-- Python `x or default` on an optional string: `None` and `""` are falsy. -/
def pyOrOpt (o : Option String) (d : String) : String :=
  match o with
  | none => d
  | some s => if s = "" then d else s

/-- Python `s or default` on a string: `""` is falsy. -/
def pyOrStr (s d : String) : String :=
  if s = "" then d else s

/-- `text.encode('ascii', 'ignore').decode('ascii')`: drop non-ASCII chars. -/
def asciiIgnore (s : String) : String :=
  String.mk (s.toList.filter (fun c => c.toNat < 128))

/-- A DOM element as read by the crawler: `inner_text()` and the
`class` attribute (which may be absent). -/
structure RawElement where
  text : String
  classes : Option String
deriving DecidableEq, Repr

/-- An `input`/`textarea`/`select` element: `type`, `placeholder`, `name`
attributes, each possibly absent. -/
structure FormInput where
  itype : Option String
  placeholder : Option String
  iname : Option String
deriving DecidableEq, Repr

/-- An entry of `page_data['components']`, produced by the interactive
tests (Log Meal / Date Selector / Sync); the outcomes come from the
browser, so they are oracle data here. -/
structure Component where
  cname : String
  working : Bool
  ctype : String
deriving DecidableEq, Repr

/-- Everything the browser returns for one successfully loaded page. -/
structure RawPage where
  title : String
  cards : List RawElement
  buttons : List RawElement
  inputs : List FormInput
  modals : List (Bool × Option String)
  components : List Component
deriving DecidableEq, Repr

/-- An entry of `page_data['cards']` / `page_data['buttons']`. -/
structure ElementEntry where
  text : String
  classes : Option String
deriving DecidableEq, Repr

/-- An entry of `page_data['forms']`. -/
structure FormEntry where
  ftype : String
  placeholder : String
  fname : String
deriving DecidableEq, Repr

/-- One entry of `results['pages']`. -/
structure PageData where
  url : String
  title : String
  screenshot : String
  components : List Component
  buttons : List ElementEntry
  forms : List FormEntry
  cards : List ElementEntry
  modals : List (Bool × Option String)
deriving DecidableEq, Repr

/-- One entry of `results['errors']`. -/
structure CrawlError where
  url : String
  error : String
deriving DecidableEq, Repr

/-- One entry of `results['features']`. -/
structure Feature where
  fname : String
  present : Bool
deriving DecidableEq, Repr

/-- The crawler's mutable state: the `visited_pages` set (as a list, most
recent first), the sequence of URLs actually navigated to, and the
`results` lists the script builds up. -/
structure CrawlState where
  visited : List String
  navigated : List String
  pages : List PageData
  errors : List CrawlError
  features : List Feature
deriving DecidableEq, Repr

/-- Navigation/extraction oracle: for a URL, either the raised exception's
message or the page content the browser returned. -/
def Load : Type := String → Except String RawPage

/-- The hardcoded frontier `pages_to_visit`. -/
def pagesToVisit : List String :=
  [ "https://heirclark.com",
    "https://heirclark.com/pages/calorie-counter",
    "https://heirclark.com/pages/steps",
    "https://heirclark.com/pages/meals",
    "https://heirclark.com/pages/programs",
    "https://heirclark.com/pages/settings" ]

/-- `f'screenshots/{url.split("/")[-1] or "home"}.png'`. -/
def screenshotPath (url : String) : String :=
  "screenshots/" ++ pyOrStr ((url.splitOn "/").getLastD "") "home" ++ ".png"

/-- The card pipeline: first 20 cards, keep those with nonempty text,
record ASCII-cleaned, stripped text truncated to 200 chars plus classes. -/
def cardEntries (cards : List RawElement) : List ElementEntry :=
  (cards.take 20).filterMap (fun c =>
    if c.text ≠ "" ∧ c.text.trim ≠ "" then
      some ⟨((asciiIgnore c.text).trim).take 200, c.classes⟩
    else none)

/-- The button pipeline: first 30 buttons, keep those with nonempty text,
record ASCII-cleaned stripped text plus classes. -/
def buttonEntries (buttons : List RawElement) : List ElementEntry :=
  (buttons.take 30).filterMap (fun b =>
    if b.text ≠ "" ∧ b.text.trim ≠ "" then
      some ⟨(asciiIgnore b.text).trim, b.classes⟩
    else none)

/-- The form pipeline: every input, with Python `or` defaults. -/
def formEntries (inputs : List FormInput) : List FormEntry :=
  inputs.map (fun i =>
    ⟨pyOrOpt i.itype "text", pyOrOpt i.placeholder "", pyOrOpt i.iname ""⟩)

/-- The `page_data` dict built for a successfully loaded page. -/
def mkPageData (url : String) (raw : RawPage) : PageData :=
  { url := url
    title := raw.title
    screenshot := screenshotPath url
    components := raw.components
    buttons := buttonEntries raw.buttons
    forms := formEntries raw.inputs
    cards := cardEntries raw.cards
    modals := raw.modals }

/-- The `results['pages']` entry a URL contributes, if it loads. -/
def pageEntry (load : Load) (url : String) : Option PageData :=
  match load url with
  | Except.ok raw => some (mkPageData url raw)
  | Except.error _ => none

/-- The `results['errors']` entry a URL contributes, if it raises. -/
def errEntry (load : Load) (url : String) : Option CrawlError :=
  match load url with
  | Except.ok _ => none
  | Except.error e => some ⟨url, e⟩

/-- Whether navigating to `url` succeeds under the oracle. -/
def loadOk (load : Load) (url : String) : Bool :=
  match load url with
  | Except.ok _ => true
  | Except.error _ => false

/-- One iteration of `for url in pages_to_visit`: skip if already visited,
otherwise mark visited, navigate, and append either a page entry or an
error entry. -/
def crawlStep (load : Load) (st : CrawlState) (url : String) : CrawlState :=
  if url ∈ st.visited then st
  else
    match load url with
    | Except.ok raw =>
        { st with
          visited := url :: st.visited
          navigated := st.navigated ++ [url]
          pages := st.pages ++ [mkPageData url raw] }
    | Except.error e =>
        { st with
          visited := url :: st.visited
          navigated := st.navigated ++ [url]
          errors := st.errors ++ [⟨url, e⟩] }

/-- Empty `results` plus empty `visited_pages`. -/
def initState : CrawlState :=
  { visited := [], navigated := [], pages := [], errors := [], features := [] }

/-- The crawl loop run on an arbitrary frontier list. -/
def crawlList (load : Load) (frontier : List String) : CrawlState :=
  frontier.foldl (crawlStep load) initState

/-- The crawl loop of `crawl_heirclark` on the hardcoded frontier. -/
def crawlLoop (load : Load) : CrawlState :=
  crawlList load pagesToVisit

/-- URL of the post-loop feature analysis. -/
def calorieCounterUrl : String := "https://heirclark.com/pages/calorie-counter"

/-- `features_to_check` of the feature-analysis phase. -/
def featuresToCheck : List (String × String) :=
  [ ("Daily Balance", "Daily Balance"),
    ("Macros", "Protein"),
    ("Today\x27s Meals", "Breakfast"),
    ("Daily Fat Loss", "FAT LOSS"),
    ("Weekly Progress", "WEEKLY PROGRESS"),
    ("Dining Out", "DINING OUT"),
    ("Wearable Sync", "WEARABLE SYNC"),
    ("Log Meal", "Log Meal") ]

/-- The feature-analysis phase: navigate (again) to the calorie-counter
page and record a visibility flag per feature; `vis` is the browser's
`is_visible` oracle and `faOk` tells whether the navigation succeeded
(its exception is caught and only printed). -/
def featurePhase (vis : String → Bool) (faOk : Bool) (st : CrawlState) : CrawlState :=
  { st with
    navigated := st.navigated ++ [calorieCounterUrl]
    features := if faOk then featuresToCheck.map (fun ft => ⟨ft.1, vis ft.2⟩) else [] }

/-- The whole of `crawl_heirclark`: the loop followed by feature analysis. -/
def crawl_heirclark (load : Load) (vis : String → Bool) (faOk : Bool) : CrawlState :=
  featurePhase vis faOk (crawlLoop load)

/-- First occurrences of a list relative to an already-visited set:
exactly the URLs the crawl loop navigates to. -/
def firstOccs (visited : List String) : List String → List String
  | [] => []
  | u :: rest =>
      if u ∈ visited then firstOccs visited rest
      else u :: firstOccs (u :: visited) rest

/-- Oracle on which every page loads with empty content. -/
def emptyRawPage : RawPage := ⟨"", [], [], [], [], []⟩

/-- Oracle: every navigation succeeds. -/
def okLoad : Load := fun _ => Except.ok emptyRawPage

/-- Oracle: the home page fails to load, everything else succeeds. -/
def failHomeLoad : Load := fun url =>
  if url = "https://heirclark.com" then Except.error "net::ERR_CONNECTION_REFUSED"
  else Except.ok emptyRawPage

/-! ## Icon processing (src/process_app_icon.py) -/

/-- A PIL image at the granularity the script manipulates: its `mode`
string and pixel dimensions. -/
structure Img where
  mode : String
  width : Nat
  height : Nat
deriving DecidableEq, Repr

/-- Which mode-normalisation branch the script took. -/
inductive ModeOp
  | pasteOnWhiteWithAlphaMask
  | convertToRGB
  | unchanged
deriving DecidableEq, Repr

/-- The `if img.mode == 'RGBA' / elif img.mode != 'RGB'` normalisation:
RGBA is pasted onto a white `RGB` background using its alpha channel as
mask (the result is the background image, same size, mode RGB); any other
non-RGB mode is `convert('RGB')`; RGB passes through. -/
def normalizeMode (img : Img) : Img × ModeOp :=
  if img.mode = "RGBA" then ({ img with mode := "RGB" }, ModeOp.pasteOnWhiteWithAlphaMask)
  else if img.mode ≠ "RGB" then ({ img with mode := "RGB" }, ModeOp.convertToRGB)
  else (img, ModeOp.unchanged)

/-- The centred square crop box `(left, top, right, bottom)` computed from
the original width and height. -/
def cropBox (w h : Nat) : Nat × Nat × Nat × Nat :=
  let s := min w h
  let left := (w - s) / 2
  let top := (h - s) / 2
  (left, top, left + s, top + s)

/-- PIL `img.crop(box)`: the result has size `(right-left, bottom-top)`. -/
def crop (img : Img) (box : Nat × Nat × Nat × Nat) : Img :=
  { img with width := box.2.2.1 - box.1, height := box.2.2.2 - box.2.1 }

/-- PIL `img.resize((w, h))`: the result has exactly the requested size. -/
def resize (img : Img) (w h : Nat) : Img :=
  { img with width := w, height := h }

/-- The whole pipeline of process_app_icon.py: normalise the mode, crop to
the centred square of the original dimensions, resize to 1024x1024. -/
def process_app_icon (img : Img) : Img × ModeOp :=
  let norm := normalizeMode img
  let box := cropBox img.width img.height
  (resize (crop norm.1 box) 1024 1024, norm.2)

/-- A file written by one of the icon scripts. -/
structure SavedFile where
  path : String
  format : String
  width : Nat
  height : Nat
deriving DecidableEq, Repr

/-- Output paths of both icon scripts. -/
def assetsIconPath : String := "C:\\Users\\derri\\HeirclarkHealthAppNew\\assets\\icon.png"

def assetsAdaptivePath : String := "C:\\Users\\derri\\HeirclarkHealthAppNew\\assets\\adaptive-icon.png"

def assetsSplashPath : String := "C:\\Users\\derri\\HeirclarkHealthAppNew\\assets\\splash-icon.png"

/-- The three `img_1024.save(..., format='PNG', ...)` calls of
process_app_icon.py: main icon, adaptive icon, splash icon. -/
def appIconOutputs (img : Img) : List SavedFile :=
  let processed := (process_app_icon img).1
  [ ⟨assetsIconPath, "PNG", processed.width, processed.height⟩,
    ⟨assetsAdaptivePath, "PNG", processed.width, processed.height⟩,
    ⟨assetsSplashPath, "PNG", processed.width, processed.height⟩ ]

/-! ## SVG icon conversion (src/process_svg_icon.py) -/

/-- The conversion method that ended up succeeding. -/
inductive SvgMethod
  | cairosvg
  | pillow
  | inkscape
  | pipInstallCairosvg
deriving DecidableEq, Repr

/-- `cairosvg.svg2png(url=..., write_to=path, output_width=ow,
output_height=oh)`: a PNG of exactly the requested size. -/
def cairoSvg2Png (path : String) (ow oh : Nat) : SavedFile :=
  ⟨path, "PNG", ow, oh⟩

/-- Inkscape `--export-type=png --export-width=w --export-height=h`. -/
def inkscapeExport (path : String) (w h : Nat) : SavedFile :=
  ⟨path, "PNG", w, h⟩

/-- `shutil.copy2`: a byte-for-byte copy under a new path. -/
def copy2 (f : SavedFile) (dest : String) : SavedFile :=
  { f with path := dest }

/-- The three files written by whichever conversion method succeeded,
with the literal size arguments of the source. `svgNative` is the SVG's
own raster size as Pillow would open it (method 2 resizes it away). -/
def process_svg_icon (svgNative : Nat × Nat) : SvgMethod → List SavedFile
  | SvgMethod.cairosvg =>
      [ cairoSvg2Png assetsIconPath 1024 1024,
        cairoSvg2Png assetsAdaptivePath 1024 1024,
        cairoSvg2Png assetsSplashPath 1024 1024 ]
  | SvgMethod.pillow =>
      let img : Img := ⟨"RGBA", svgNative.1, svgNative.2⟩
      let resized := resize img 1024 1024
      [ ⟨assetsIconPath, "PNG", resized.width, resized.height⟩,
        ⟨assetsAdaptivePath, "PNG", resized.width, resized.height⟩,
        ⟨assetsSplashPath, "PNG", resized.width, resized.height⟩ ]
  | SvgMethod.inkscape =>
      let icon := inkscapeExport assetsIconPath 1024 1024
      [ icon, copy2 icon assetsAdaptivePath, copy2 icon assetsSplashPath ]
  | SvgMethod.pipInstallCairosvg =>
      [ cairoSvg2Png assetsIconPath 1024 1024,
        cairoSvg2Png assetsAdaptivePath 1024 1024,
        cairoSvg2Png assetsSplashPath 1024 1024 ]

/-- Apple-standard output check used by the claims: 1024x1024 PNG. -/
def saved1024png (f : SavedFile) : Bool :=
  f.width == 1024 && f.height == 1024 && f.format == "PNG"

/-! ## Database migration (src/backend/run_migration.py)

The schema state lives in PostgreSQL; `ALTER TABLE ... ADD COLUMN IF NOT
EXISTS` is embedded with its documented semantics: append the column
unless a column of that name already exists (never an error either way). -/

structure Column where
  colName : String
  dtype : String
deriving DecidableEq, Repr

/-- A table schema: its columns in order. -/
abbrev Schema := List Column

/-- Whether the schema already has a column of the given name. -/
def hasColumn (s : Schema) (n : String) : Bool :=
  s.any (fun c => c.colName == n)

/-- `ADD COLUMN IF NOT EXISTS c`. -/
def addColumnIfNotExists (s : Schema) (c : Column) : Schema :=
  if hasColumn s c.colName then s else s ++ [c]

/-- The migration statement: `ALTER TABLE workout_plans ADD COLUMN IF NOT
EXISTS cardio_recommendations JSONB, ADD COLUMN IF NOT EXISTS
nutrition_guidance JSONB;`. -/
def migrationSql (s : Schema) : Schema :=
  addColumnIfNotExists
    (addColumnIfNotExists s ⟨"cardio_recommendations", "jsonb"⟩)
    ⟨"nutrition_guidance", "jsonb"⟩

/-- `run_migration`: executes the statement, commits, and returns True;
the Boolean is the script's success report. -/
def run_migration (s : Schema) : Schema × Bool :=
  (migrationSql s, true)

/-! ## Browser-automation scripts: close-on-exit structure

Each script is transcribed as the ordered list of browser-touching
statements of its body, together with whether the `browser.close()` is
placed in a `finally` (scoped-resource) block and whether the body is
wrapped in a top-level try/except at all. A run either completes the body
or raises at some step, executing only the steps before it. -/

inductive Step
  | act (label : String)
  | closeBrowser
deriving DecidableEq, Repr

structure Script where
  scriptName : String
  body : List Step
  finallyClose : Bool
  topLevelHandler : Bool
deriving DecidableEq, Repr

/-- The steps actually executed: all of them, or the first `k` when step
`k` raises. -/
def executedSteps (s : Script) (failAt : Option Nat) : List Step :=
  match failAt with
  | none => s.body
  | some k => s.body.take k

/-- Whether the browser ends up closed by the script itself: either the
close sits in a finally block, or the plain close statement was reached. -/
def browserClosed (s : Script) (failAt : Option Nat) : Bool :=
  s.finallyClose || (executedSteps s failAt).contains Step.closeBrowser

def capture_element_script : Script :=
  { scriptName := "capture_element"
    body := [ Step.act "goto localhost 8081", Step.act "wait 8000",
              Step.act "query Skip", Step.act "click Skip", Step.act "wait 3000",
              Step.act "screenshot full_page_tall" ]
    finallyClose := true
    topLevelHandler := true }

def capture_gauges_script : Script :=
  { scriptName := "capture_gauges"
    body := [ Step.act "goto localhost 8081", Step.act "wait 8000",
              Step.act "query Skip", Step.act "click Skip",
              Step.act "query Log In", Step.act "click Log In",
              Step.act "screenshot calorie_counter_page",
              Step.act "scroll 800", Step.act "screenshot calorie_counter_scrolled",
              Step.act "scroll 300", Step.act "screenshot macro_cards_view" ]
    finallyClose := true
    topLevelHandler := true }

def capture_macro_detail_script : Script :=
  { scriptName := "capture_macro_detail"
    body := [ Step.act "goto localhost 8081", Step.act "wait 8000",
              Step.act "query Skip", Step.act "click Skip",
              Step.act "scroll 400", Step.act "screenshot macro_cards_detail",
              Step.act "scroll 250", Step.act "screenshot gauges_combined" ]
    finallyClose := true
    topLevelHandler := true }

def capture_macros_final_script : Script :=
  { scriptName := "capture_macros_final"
    body := [ Step.act "goto localhost 8081", Step.act "wait 8000",
              Step.act "query Skip", Step.act "click Skip",
              Step.act "scroll 550", Step.act "screenshot macros_view1",
              Step.act "scroll 650", Step.act "screenshot macros_view2",
              Step.act "scroll 500", Step.act "screenshot macros_view3" ]
    finallyClose := true
    topLevelHandler := true }

def diagnose_cards_script : Script :=
  { scriptName := "diagnose_cards"
    body := [ Step.act "goto localhost 8081", Step.act "wait 8000",
              Step.act "query Skip", Step.act "click Skip",
              Step.act "screenshot diagnosis_01_initial",
              Step.act "scroll 800", Step.act "click DAILY FAT LOSS",
              Step.act "scroll 1200", Step.act "click WEEKLY PROGRESS",
              Step.act "scroll 1800", Step.act "click DINING OUT",
              Step.act "scroll 2400", Step.act "click WEARABLE SYNC",
              Step.act "scroll 3000", Step.act "click TODAY\x27S MEALS" ]
    finallyClose := true
    topLevelHandler := true }

/-- check_fonts.py: the port loop swallows per-port errors; the close is a
plain statement after the 30-second inspection wait, with no try/finally
around the body. -/
def check_fonts_script : Script :=
  { scriptName := "check_fonts"
    body := [ Step.act "port loop goto", Step.act "wait 5000",
              Step.act "screenshot font_check_screenshot",
              Step.act "wait 30000", Step.closeBrowser ]
    finallyClose := false
    topLevelHandler := false }

/-- test_fonts.py: same shape, bare per-port excepts, trailing close. -/
def test_fonts_script : Script :=
  { scriptName := "test_fonts"
    body := [ Step.act "port loop goto", Step.act "wait 3000",
              Step.act "screenshot font_test_result", Step.closeBrowser ]
    finallyClose := false
    topLevelHandler := false }

/-- comprehensive_diagnostic.py: eighteen sequential UI tests with no
try/except anywhere; the close is the last statement of the body. -/
def comprehensive_diagnostic_script : Script :=
  { scriptName := "comprehensive_diagnostic"
    body := [ Step.act "goto localhost 8081",
              Step.act "tests 01 to 06 dashboard cards and gauges",
              Step.act "tests 07 to 10 scroll and collapsible cards",
              Step.act "test 11 ai meal logger modal",
              Step.act "tests 12 to 14 wearable dining full page",
              Step.act "tests 15 to 18 fonts colors spacing", Step.closeBrowser ]
    finallyClose := false
    topLevelHandler := false }

/-- crawl_heirclark_website.py: per-URL handlers inside the loop, close as
a plain statement after the feature analysis. -/
def crawl_website_script : Script :=
  { scriptName := "crawl_heirclark_website"
    body := [ Step.act "launch context page",
              Step.act "crawl loop over pages_to_visit",
              Step.act "feature analysis", Step.closeBrowser ]
    finallyClose := false
    topLevelHandler := false }

/-- The five capture scripts of the recurring pattern. -/
def captureScripts : List Script :=
  [ capture_element_script, capture_gauges_script, capture_macro_detail_script,
    capture_macros_final_script, diagnose_cards_script ]

/-- Every script of the repository that launches a browser. -/
def browserAutomationScripts : List Script :=
  captureScripts ++
    [ check_fonts_script, test_fonts_script, comprehensive_diagnostic_script,
      crawl_website_script ]

/-! ## Capture-script configurations (claim about the five-script pattern) -/

structure CaptureConfig where
  viewportWidth : Nat
  viewportHeight : Nat
  deviceScaleFactor : Nat
  isMobile : Bool
  hasTouch : Bool
  url : String
  gotoTimeoutMs : Nat
  waitUntil : String
  initialWaitMs : Nat
  /-- selectors conditionally clicked (with post-click settle wait). -/
  clickTargets : List (String × Nat)
  /-- unconditional settle waits after the conditional section. -/
  extraWaitsMs : List Nat
  scrollOffsets : List Nat
  screenshotPaths : List String
deriving DecidableEq, Repr

def capture_element_cfg : CaptureConfig :=
  { viewportWidth := 390, viewportHeight := 1200, deviceScaleFactor := 3,
    isMobile := true, hasTouch := true,
    url := "http://localhost:8081", gotoTimeoutMs := 60000, waitUntil := "networkidle",
    initialWaitMs := 8000,
    clickTargets := [("text=Skip", 3000)],
    extraWaitsMs := [],
    scrollOffsets := [],
    screenshotPaths := ["C:\\Users\\derri\\HeirclarkHealthAppNew\\full_page_tall.png"] }

def capture_gauges_cfg : CaptureConfig :=
  { viewportWidth := 390, viewportHeight := 844, deviceScaleFactor := 3,
    isMobile := true, hasTouch := true,
    url := "http://localhost:8081", gotoTimeoutMs := 60000, waitUntil := "networkidle",
    initialWaitMs := 8000,
    clickTargets := [("text=Skip", 3000), ("text=Log In", 3000)],
    extraWaitsMs := [2000, 2000, 2000],
    scrollOffsets := [800, 300],
    screenshotPaths :=
      [ "C:\\Users\\derri\\HeirclarkHealthAppNew\\calorie_counter_page.png",
        "C:\\Users\\derri\\HeirclarkHealthAppNew\\calorie_counter_scrolled.png",
        "C:\\Users\\derri\\HeirclarkHealthAppNew\\macro_cards_view.png" ] }

def capture_macro_detail_cfg : CaptureConfig :=
  { viewportWidth := 390, viewportHeight := 844, deviceScaleFactor := 3,
    isMobile := true, hasTouch := true,
    url := "http://localhost:8081", gotoTimeoutMs := 60000, waitUntil := "networkidle",
    initialWaitMs := 8000,
    clickTargets := [("text=Skip", 3000)],
    extraWaitsMs := [2000, 2000],
    scrollOffsets := [400, 250],
    screenshotPaths :=
      [ "C:\\Users\\derri\\HeirclarkHealthAppNew\\macro_cards_detail.png",
        "C:\\Users\\derri\\HeirclarkHealthAppNew\\gauges_combined.png" ] }

def capture_macros_final_cfg : CaptureConfig :=
  { viewportWidth := 390, viewportHeight := 844, deviceScaleFactor := 3,
    isMobile := true, hasTouch := true,
    url := "http://localhost:8081", gotoTimeoutMs := 60000, waitUntil := "networkidle",
    initialWaitMs := 8000,
    clickTargets := [("text=Skip", 3000)],
    extraWaitsMs := [2000, 2000, 2000],
    scrollOffsets := [550, 650, 500],
    screenshotPaths :=
      [ "C:\\Users\\derri\\HeirclarkHealthAppNew\\macros_view1.png",
        "C:\\Users\\derri\\HeirclarkHealthAppNew\\macros_view2.png",
        "C:\\Users\\derri\\HeirclarkHealthAppNew\\macros_view3.png" ] }

def diagnose_cards_cfg : CaptureConfig :=
  { viewportWidth := 390, viewportHeight := 1400, deviceScaleFactor := 3,
    isMobile := true, hasTouch := true,
    url := "http://localhost:8081", gotoTimeoutMs := 60000, waitUntil := "networkidle",
    initialWaitMs := 8000,
    clickTargets :=
      [ ("text=Skip", 3000), ("text=DAILY FAT LOSS", 1000),
        ("text=WEEKLY PROGRESS", 1000), ("text=DINING OUT", 1000),
        ("text=WEARABLE SYNC", 1000), ("text=TODAY\x27S MEALS", 1000) ],
    extraWaitsMs := [2000, 2000, 2000, 2000, 2000],
    scrollOffsets := [800, 1200, 1800, 2400, 3000],
    screenshotPaths :=
      [ "C:\\Users\\derri\\HeirclarkHealthAppNew\\diagnosis_01_initial.png",
        "C:\\Users\\derri\\HeirclarkHealthAppNew\\diagnosis_02_scrolled.png",
        "C:\\Users\\derri\\HeirclarkHealthAppNew\\diagnosis_03_daily_fat_loss.png",
        "C:\\Users\\derri\\HeirclarkHealthAppNew\\diagnosis_04_weekly_progress.png",
        "C:\\Users\\derri\\HeirclarkHealthAppNew\\diagnosis_05_dining_out.png",
        "C:\\Users\\derri\\HeirclarkHealthAppNew\\diagnosis_06_wearable_sync.png",
        "C:\\Users\\derri\\HeirclarkHealthAppNew\\diagnosis_07_todays_meals.png" ] }

def fiveCaptureConfigs : List CaptureConfig :=
  [ capture_element_cfg, capture_gauges_cfg, capture_macro_detail_cfg,
    capture_macros_final_cfg, diagnose_cards_cfg ]

/-- Erase exactly what the spec allows to differ: screenshot file paths
and scroll offsets. -/
def eraseVariable (c : CaptureConfig) : CaptureConfig :=
  { c with screenshotPaths := [], scrollOffsets := [] }

/-- The configuration facts shared by all five capture scripts. -/
def commonPart (c : CaptureConfig) : Bool :=
  c.viewportWidth == 390 && c.deviceScaleFactor == 3 && c.isMobile && c.hasTouch &&
  c.url == "http://localhost:8081" && c.gotoTimeoutMs == 60000 &&
  c.waitUntil == "networkidle" && c.initialWaitMs == 8000 &&
  c.clickTargets.contains ("text=Skip", 3000)

/-! ## capture_element execution trace (conditional Skip click) -/

inductive Ev
  | goto (url : String)
  | wait (ms : Nat)
  | click (sel : String)
  | shot (path : String)
deriving DecidableEq, Repr

def fullPageTallPath : String :=
  "C:\\Users\\derri\\HeirclarkHealthAppNew\\full_page_tall.png"

/-- The browser actions of capture_element.py as a function of whether a
`text=Skip` element is found: navigate, initial wait, optional click with
its settle wait, screenshot. -/
def captureElementTrace (skipPresent : Bool) : List Ev :=
  [Ev.goto "http://localhost:8081", Ev.wait 8000] ++
    (if skipPresent then [Ev.click "text=Skip", Ev.wait 3000] else []) ++
    [Ev.shot fullPageTallPath]

/-! ## Crawl loop: fold characterisation -/

theorem foldl_crawlStep_eq (load : Load) (f : List String) (st : CrawlState) :
    f.foldl (crawlStep load) st =
      { visited := (firstOccs st.visited f).reverse ++ st.visited
        navigated := st.navigated ++ firstOccs st.visited f
        pages := st.pages ++ (firstOccs st.visited f).filterMap (pageEntry load)
        errors := st.errors ++ (firstOccs st.visited f).filterMap (errEntry load)
        features := st.features } := by
  induction f generalizing st with
  | nil => simp [firstOccs]
  | cons u rest ih =>
    obtain ⟨v, n, pg, er, ft⟩ := st
    by_cases h : u ∈ v
    · simp only [List.foldl_cons, crawlStep, h, if_true, firstOccs, if_pos h]
      exact ih _
    · simp only [List.foldl_cons, crawlStep, h, if_false, firstOccs, if_neg h]
      cases hl : load u with
      | ok raw =>
        rw [ih]
        simp [pageEntry, errEntry, hl, List.filterMap_cons, List.append_assoc]
      | error e =>
        rw [ih]
        simp [pageEntry, errEntry, hl, List.filterMap_cons, List.append_assoc]

theorem firstOccs_pagesToVisit : firstOccs [] pagesToVisit = pagesToVisit := by decide

theorem crawlList_eq (load : Load) (frontier : List String) :
    crawlList load frontier =
      { visited := (firstOccs [] frontier).reverse
        navigated := firstOccs [] frontier
        pages := (firstOccs [] frontier).filterMap (pageEntry load)
        errors := (firstOccs [] frontier).filterMap (errEntry load)
        features := [] } := by
  rw [crawlList, foldl_crawlStep_eq]
  simp [initState]

theorem crawlLoop_eq (load : Load) :
    crawlLoop load =
      { visited := pagesToVisit.reverse
        navigated := pagesToVisit
        pages := pagesToVisit.filterMap (pageEntry load)
        errors := pagesToVisit.filterMap (errEntry load)
        features := [] } := by
  rw [crawlLoop, crawlList_eq, firstOccs_pagesToVisit]

theorem crawl_heirclark_pages (load : Load) (vis : String → Bool) (faOk : Bool) :
    (crawl_heirclark load vis faOk).pages = pagesToVisit.filterMap (pageEntry load) := by
  rw [crawl_heirclark, crawlLoop_eq]
  rfl

theorem crawl_heirclark_errors (load : Load) (vis : String → Bool) (faOk : Bool) :
    (crawl_heirclark load vis faOk).errors = pagesToVisit.filterMap (errEntry load) := by
  rw [crawl_heirclark, crawlLoop_eq]
  rfl

theorem crawl_heirclark_navigated (load : Load) (vis : String → Bool) (faOk : Bool) :
    (crawl_heirclark load vis faOk).navigated = pagesToVisit ++ [calorieCounterUrl] := by
  rw [crawl_heirclark, crawlLoop_eq]
  rfl

theorem map_url_filterMap_pageEntry (load : Load) (L : List String) :
    (L.filterMap (pageEntry load)).map PageData.url
      = L.filter (fun u => loadOk load u) := by
  induction L with
  | nil => rfl
  | cons u rest ih =>
    cases hl : load u with
    | ok raw =>
      simp [List.filterMap_cons, pageEntry, hl, loadOk, mkPageData, ih, List.filter_cons]
    | error e =>
      simp [List.filterMap_cons, pageEntry, hl, loadOk, ih, List.filter_cons]

theorem map_url_filterMap_errEntry (load : Load) (L : List String) :
    (L.filterMap (errEntry load)).map CrawlError.url
      = L.filter (fun u => !loadOk load u) := by
  induction L with
  | nil => rfl
  | cons u rest ih =>
    cases hl : load u with
    | ok raw =>
      simp [List.filterMap_cons, errEntry, hl, loadOk, ih, List.filter_cons]
    | error e =>
      simp [List.filterMap_cons, errEntry, hl, loadOk, ih, List.filter_cons]

theorem length_pageEntry_add_errEntry (load : Load) (L : List String) :
    (L.filterMap (pageEntry load)).length + (L.filterMap (errEntry load)).length
      = L.length := by
  induction L with
  | nil => rfl
  | cons u rest ih =>
    cases hl : load u <;>
      simp [List.filterMap_cons, pageEntry, errEntry, hl] <;> omega

/-! ## Claim theorems -/

/-- C1 counterexample: the claim says the only failure recovery anywhere is
one top-level try/except that prints and exits, and that every script has
such a handler. But when the first URL of the crawl fails to load, the
crawler records the error in `results['errors']` and keeps going: all five
remaining pages are still crawled. Moreover comprehensive_diagnostic.py has
no exception handler at all. -/
theorem C1_counterexample :
    (crawl_heirclark failHomeLoad (fun _ => false) true).errors
        = [⟨"https://heirclark.com", "net::ERR_CONNECTION_REFUSED"⟩] ∧
    (crawl_heirclark failHomeLoad (fun _ => false) true).pages.length = 5 ∧
    comprehensive_diagnostic_script.topLevelHandler = false := by
  decide

/-- C1 (amended): the crawler handles failures per URL: a navigation or
extraction error on a frontier URL is recorded as an entry of
`results['errors']` and the crawl continues, still navigating the whole
frontier (and then the feature-analysis page); and
comprehensive_diagnostic.py has no top-level handler at all. -/
theorem C1_per_url_error_recovery (load : Load) (vis : String → Bool) (faOk : Bool)
    (url e : String) (hmem : url ∈ pagesToVisit) (hl : load url = Except.error e) :
    (⟨url, e⟩ : CrawlError) ∈ (crawl_heirclark load vis faOk).errors ∧
    (crawl_heirclark load vis faOk).navigated = pagesToVisit ++ [calorieCounterUrl] ∧
    comprehensive_diagnostic_script.topLevelHandler = false := by
  refine ⟨?_, crawl_heirclark_navigated load vis faOk, rfl⟩
  rw [crawl_heirclark_errors]
  exact List.mem_filterMap.mpr ⟨url, hmem, by simp [errEntry, hl]⟩

/-- C1 witness: the amended statement at the oracle on which the home page
fails with a connection error. -/
theorem C1_per_url_error_recovery_witness :
    (⟨"https://heirclark.com", "net::ERR_CONNECTION_REFUSED"⟩ : CrawlError) ∈
      (crawl_heirclark failHomeLoad (fun _ => false) true).errors :=
  (C1_per_url_error_recovery failHomeLoad (fun _ => false) true
    "https://heirclark.com" "net::ERR_CONNECTION_REFUSED" (by decide) rfl).1

/-- C3 counterexample: the claim says each frontier entry is navigated
regardless of earlier occurrences and that no visited record is kept. On a
frontier containing the same URL twice, the crawler navigates once, and its
`visited_pages` record holds that URL. -/
theorem C3_counterexample :
    (crawlList okLoad ["https://heirclark.com", "https://heirclark.com"]).navigated
        = ["https://heirclark.com"] ∧
    (crawlList okLoad ["https://heirclark.com", "https://heirclark.com"]).visited
        = ["https://heirclark.com"] := by
  decide

/-- C3 (amended): the crawler keeps a `visited_pages` set and skips any
frontier entry whose URL occurred earlier: for every oracle and frontier
list it navigates exactly to the first occurrences, in order, and the
visited set records exactly those URLs. -/
theorem C3_visited_set_dedup (load : Load) (frontier : List String) :
    (crawlList load frontier).navigated = firstOccs [] frontier ∧
    (crawlList load frontier).visited = (firstOccs [] frontier).reverse := by
  rw [crawlList_eq]
  exact ⟨rfl, rfl⟩

/-- C4: the crawl loop navigates exactly the six hardcoded URLs in list
order (the later feature analysis only revisits one of them), and every
successfully loaded page contributes its `page_data` dict — cards, buttons,
form inputs and modals included — to `results['pages']`. -/
theorem C4_fixed_frontier_crawl (load : Load) (vis : String → Bool) (faOk : Bool) :
    (crawlLoop load).navigated = pagesToVisit ∧
    firstOccs [] (crawl_heirclark load vis faOk).navigated = pagesToVisit ∧
    (∀ url raw, url ∈ pagesToVisit → load url = Except.ok raw →
      mkPageData url raw ∈ (crawl_heirclark load vis faOk).pages) := by
  refine ⟨by rw [crawlLoop_eq], ?_, ?_⟩
  · rw [crawl_heirclark_navigated]
    decide
  · intro url raw hmem hl
    rw [crawl_heirclark_pages]
    exact List.mem_filterMap.mpr ⟨url, hmem, by simp [pageEntry, hl]⟩

/-- C4 witness: the statement at the all-pages-load oracle and the home
page. -/
theorem C4_fixed_frontier_crawl_witness :
    mkPageData "https://heirclark.com" emptyRawPage ∈
      (crawl_heirclark okLoad (fun _ => false) true).pages ∧
    (crawlLoop okLoad).navigated = pagesToVisit :=
  ⟨(C4_fixed_frontier_crawl okLoad (fun _ => false) true).2.2
      "https://heirclark.com" emptyRawPage (by decide) rfl,
   (C4_fixed_frontier_crawl okLoad (fun _ => false) true).1⟩

/-- C9: at the end of a crawl each frontier URL contributed exactly one
entry — a page entry if it loaded, an error entry if it raised, never
both — so pages plus errors counts the distinct URLs of the list, i.e. 6. -/
theorem C9_page_error_partition (load : Load) (vis : String → Bool) (faOk : Bool) :
    (crawl_heirclark load vis faOk).pages.length
        + (crawl_heirclark load vis faOk).errors.length
      = (firstOccs [] pagesToVisit).length ∧
    (firstOccs [] pagesToVisit).length = 6 ∧
    (∀ url, url ∈ pagesToVisit →
      ((∃ p ∈ (crawl_heirclark load vis faOk).pages, p.url = url) ↔
        ¬ ∃ er ∈ (crawl_heirclark load vis faOk).errors, er.url = url)) := by
  rw [crawl_heirclark_pages, crawl_heirclark_errors]
  refine ⟨?_, by decide, ?_⟩
  · rw [firstOccs_pagesToVisit]
    exact length_pageEntry_add_errEntry load pagesToVisit
  · intro url hmem
    have hp : (∃ p ∈ pagesToVisit.filterMap (pageEntry load), p.url = url) ↔
        loadOk load url = true := by
      constructor
      · rintro ⟨p, hpmem, hpu⟩
        have hmm : url ∈ (pagesToVisit.filterMap (pageEntry load)).map PageData.url :=
          List.mem_map.mpr ⟨p, hpmem, hpu⟩
        rw [map_url_filterMap_pageEntry] at hmm
        exact (List.mem_filter.mp hmm).2
      · intro hok
        have hmm : url ∈ pagesToVisit.filter (fun u => loadOk load u) :=
          List.mem_filter.mpr ⟨hmem, hok⟩
        rw [← map_url_filterMap_pageEntry load pagesToVisit] at hmm
        exact List.mem_map.mp hmm
    have he : (∃ er ∈ pagesToVisit.filterMap (errEntry load), er.url = url) ↔
        loadOk load url = false := by
      constructor
      · rintro ⟨er, hermem, heru⟩
        have hmm : url ∈ (pagesToVisit.filterMap (errEntry load)).map CrawlError.url :=
          List.mem_map.mpr ⟨er, hermem, heru⟩
        rw [map_url_filterMap_errEntry] at hmm
        have := (List.mem_filter.mp hmm).2
        simpa using this
      · intro hok
        have hmm : url ∈ pagesToVisit.filter (fun u => !loadOk load u) :=
          List.mem_filter.mpr ⟨hmem, by simp [hok]⟩
        rw [← map_url_filterMap_errEntry load pagesToVisit] at hmm
        exact List.mem_map.mp hmm
    rw [hp, he]
    cases loadOk load url <;> simp

/-- C9 witness: the partition at the all-pages-load oracle, with the
membership dichotomy instantiated at the home page. -/
theorem C9_page_error_partition_witness :
    (crawl_heirclark okLoad (fun _ => false) true).pages.length
        + (crawl_heirclark okLoad (fun _ => false) true).errors.length
      = (firstOccs [] pagesToVisit).length ∧
    ((∃ p ∈ (crawl_heirclark okLoad (fun _ => false) true).pages,
        p.url = "https://heirclark.com") ↔
      ¬ ∃ er ∈ (crawl_heirclark okLoad (fun _ => false) true).errors,
        er.url = "https://heirclark.com") :=
  ⟨(C9_page_error_partition okLoad (fun _ => false) true).1,
   (C9_page_error_partition okLoad (fun _ => false) true).2.2
      "https://heirclark.com" (by decide)⟩

/-- C2: whatever the input image's positive dimensions, process_app_icon
writes all three of its outputs as 1024x1024 PNG, and process_svg_icon
does likewise under every conversion method that can succeed. -/
theorem C2_icons_1024_png :
    (∀ img : Img, 0 < img.width → 0 < img.height →
      (appIconOutputs img).all saved1024png = true) ∧
    (∀ svgNative : Nat × Nat, ∀ m : SvgMethod,
      (process_svg_icon svgNative m).all saved1024png = true) := by
  constructor
  · intro img _ _
    rfl
  · intro svgNative m
    cases m <;> rfl

/-- C2 witness: a 2000x1500 RGB input and the cairosvg method. -/
theorem C2_icons_1024_png_witness :
    (appIconOutputs ⟨"RGB", 2000, 1500⟩).all saved1024png = true ∧
    (process_svg_icon (512, 512) SvgMethod.cairosvg).all saved1024png = true :=
  ⟨C2_icons_1024_png.1 ⟨"RGB", 2000, 1500⟩ (by decide) (by decide),
   C2_icons_1024_png.2 (512, 512) SvgMethod.cairosvg⟩

theorem process_app_icon_mode (img : Img) :
    ((process_app_icon img).1).mode = ((normalizeMode img).1).mode := rfl

theorem process_app_icon_op (img : Img) :
    (process_app_icon img).2 = (normalizeMode img).2 := rfl

theorem normalizeMode_rgb (img : Img) : ((normalizeMode img).1).mode = "RGB" := by
  unfold normalizeMode
  split_ifs with h1 h2
  · rfl
  · rfl
  · exact not_not.mp h2

/-- C10: the saved icon always has mode RGB; an RGBA input goes through
the paste-onto-white-with-alpha-mask branch, and any other non-RGB mode
through `convert('RGB')`. -/
theorem C10_mode_rgb (img : Img) :
    ((process_app_icon img).1).mode = "RGB" ∧
    (img.mode = "RGBA" →
      (process_app_icon img).2 = ModeOp.pasteOnWhiteWithAlphaMask) ∧
    (img.mode ≠ "RGBA" → img.mode ≠ "RGB" →
      (process_app_icon img).2 = ModeOp.convertToRGB) := by
  refine ⟨(process_app_icon_mode img).trans (normalizeMode_rgb img), ?_, ?_⟩
  · intro h
    rw [process_app_icon_op]
    unfold normalizeMode
    rw [if_pos h]
  · intro h1 h2
    rw [process_app_icon_op]
    unfold normalizeMode
    rw [if_neg h1, if_pos h2]

/-- C10 witness: a 4032x3024 RGBA input is composited and comes out RGB. -/
theorem C10_mode_rgb_witness :
    ((process_app_icon ⟨"RGBA", 4032, 3024⟩).1).mode = "RGB" ∧
    (process_app_icon ⟨"RGBA", 4032, 3024⟩).2 = ModeOp.pasteOnWhiteWithAlphaMask :=
  ⟨(C10_mode_rgb ⟨"RGBA", 4032, 3024⟩).1,
   (C10_mode_rgb ⟨"RGBA", 4032, 3024⟩).2.1 rfl⟩

theorem hasColumn_add_self (s : Schema) (c : Column) :
    hasColumn (addColumnIfNotExists s c) c.colName = true := by
  unfold addColumnIfNotExists
  split
  · assumption
  · simp [hasColumn, List.any_append]

theorem hasColumn_add_mono (s : Schema) (c : Column) (n : String)
    (h : hasColumn s n = true) :
    hasColumn (addColumnIfNotExists s c) n = true := by
  unfold addColumnIfNotExists
  split
  · exact h
  · simp only [hasColumn, List.any_append] at h ⊢
    simp [h]

theorem add_of_has (s : Schema) (c : Column) (h : hasColumn s c.colName = true) :
    addColumnIfNotExists s c = s := by
  unfold addColumnIfNotExists
  rw [if_pos h]

/-- C8: the migration is idempotent on the schema and a second run still
reports success: running the two ADD COLUMN IF NOT EXISTS clauses twice
yields the same schema as running them once, and run_migration returns
True again. -/
theorem C8_migration_idempotent (s : Schema) :
    run_migration (run_migration s).1 = run_migration s ∧
    (run_migration (run_migration s).1).2 = true := by
  have hc : hasColumn (migrationSql s) "cardio_recommendations" = true := by
    unfold migrationSql
    exact hasColumn_add_mono _ _ _
      (hasColumn_add_self s ⟨"cardio_recommendations", "jsonb"⟩)
  have hn : hasColumn (migrationSql s) "nutrition_guidance" = true := by
    unfold migrationSql
    exact hasColumn_add_self _ _
  have hidem : migrationSql (migrationSql s) = migrationSql s := by
    have h1 : addColumnIfNotExists (migrationSql s)
        ⟨"cardio_recommendations", "jsonb"⟩ = migrationSql s :=
      add_of_has _ _ hc
    calc migrationSql (migrationSql s)
        = addColumnIfNotExists
            (addColumnIfNotExists (migrationSql s) ⟨"cardio_recommendations", "jsonb"⟩)
            ⟨"nutrition_guidance", "jsonb"⟩ := rfl
      _ = addColumnIfNotExists (migrationSql s) ⟨"nutrition_guidance", "jsonb"⟩ := by
            rw [h1]
      _ = migrationSql s := add_of_has _ _ hn
  exact ⟨by simp [run_migration, hidem], rfl⟩

/-- C5 counterexample: the claim says every browser-automation script
closes the browser on every execution path via a scoped-resource block.
In check_fonts.py the close is a plain trailing statement: if the
screenshot step raises, the close is never reached. -/
theorem C5_counterexample :
    browserClosed check_fonts_script (some 2) = false ∧
    check_fonts_script ∈ browserAutomationScripts := by
  decide

/-- C5 (amended): the five capture scripts close the browser in a
try/finally, on success and on any raising step alike; the other
browser-automation scripts reach their plain close statement only when the
whole body completes. -/
theorem C5_capture_scripts_close_in_finally (failAt : Option Nat) :
    (captureScripts.all (fun s => browserClosed s failAt)) = true ∧
    (browserAutomationScripts.all (fun s => browserClosed s none)) = true := by
  constructor
  · simp [captureScripts, browserClosed, capture_element_script, capture_gauges_script,
      capture_macro_detail_script, capture_macros_final_script, diagnose_cards_script]
  · decide

/-- C6 counterexample: the claim says the five capture scripts are
identical up to screenshot paths and scroll offsets. Their viewport
configurations already differ: capture_element uses height 1200,
capture_gauges 844. -/
theorem C6_counterexample :
    eraseVariable capture_element_cfg ≠ eraseVariable capture_gauges_cfg ∧
    capture_element_cfg.viewportHeight = 1200 ∧
    capture_gauges_cfg.viewportHeight = 844 := by
  decide

/-- C6 (amended): the five capture scripts share viewport width 390,
device scale factor 3, mobile and touch flags, navigation target
http://localhost:8081 with timeout 60000 and networkidle, the 8000 ms
initial wait, and the conditional Skip click with 3000 ms settle; but
their viewport heights, additional click targets and settle waits differ,
beyond the path and scroll-offset differences the claim allows. -/
theorem C6_common_core :
    (fiveCaptureConfigs.all commonPart) = true ∧
    capture_element_cfg.viewportHeight ≠ capture_gauges_cfg.viewportHeight ∧
    capture_gauges_cfg.viewportHeight ≠ diagnose_cards_cfg.viewportHeight ∧
    capture_element_cfg.clickTargets ≠ capture_gauges_cfg.clickTargets := by
  decide

/-- C7 counterexample: the claim says that when the Skip element is absent
the script still waits the fixed settle duration before capturing. In
capture_element.py the 3000 ms wait sits inside the `if skip_button:`
branch: it occurs when the button is present and not when it is absent. -/
theorem C7_counterexample :
    (Ev.wait 3000 ∈ captureElementTrace true) ∧
    (Ev.wait 3000 ∉ captureElementTrace false) := by
  decide

/-- C7 (amended): the Skip button is clicked iff a matching element is
found; when absent the script performs no click and proceeds directly from
the initial load wait to capturing its screenshot at the hardcoded path,
skipping the post-click settle wait. -/
theorem C7_conditional_skip_click (skipPresent : Bool) :
    (Ev.click "text=Skip" ∈ captureElementTrace skipPresent ↔ skipPresent = true) ∧
    Ev.shot fullPageTallPath ∈ captureElementTrace skipPresent ∧
    (skipPresent = false →
      captureElementTrace skipPresent =
        [Ev.goto "http://localhost:8081", Ev.wait 8000, Ev.shot fullPageTallPath]) := by
  cases skipPresent <;> exact (by decide)

/-- C7 witness: the absent-button run navigates, waits the load wait, and
captures, with no click and no settle wait. -/
theorem C7_conditional_skip_click_witness :
    captureElementTrace false =
      [Ev.goto "http://localhost:8081", Ev.wait 8000, Ev.shot fullPageTallPath] :=
  (C7_conditional_skip_click false).2.2 rfl

end Heirclark
